import Mathlib

/-!
Verification of the credential pool manager of `augment2api`.

The Go source (`pkg/token/manager.go` and the tenant-endpoint checker) is
shallowly embedded: Redis is modelled as an explicit `Store` value, time as a
`Nat` in nanoseconds (matching Go `time.Duration` units), a failed
`RedisGet` / `json.Unmarshal` as a `Cell` that is `absent` / `corrupt`, and
`rand.Intn n` as an arbitrary seed reduced modulo `n`.
-/

namespace Augment2api

/-- One nanosecond-denominated second, matching Go's `time.Second`. -/
def second : Nat := 1000000000

/-- Go's `time.Minute`. -/
def minute : Nat := 60 * second

/-- Go's `time.Hour`. -/
def hour : Nat := 60 * minute

/-- `TokenRequestStatus` from manager.go: whether a request is in progress and
when the last request happened (`time.Time{}` is modelled as `0`). -/
structure TokenRequestStatus where
  inProgress : Bool
  lastRequestAt : Nat
deriving DecidableEq, Repr

/-- `TokenCoolStatus` from manager.go: cooldown flag and absolute end time. -/
structure TokenCoolStatus where
  inCool : Bool
  coolEnd : Nat
deriving DecidableEq, Repr

/-- A persisted cell as seen through `config.RedisGet` + `json.Unmarshal`:
`absent` models a `RedisGet` error (missing key or store failure), `corrupt`
models a present value that fails to unmarshal, `val` a readable record. -/
inductive Cell (α : Type) where
  | absent : Cell α
  | corrupt : Cell α
  | val : α → Cell α
deriving DecidableEq, Repr

/-- All Redis-resident fields of one credential, as read by the manager.
`Option` fields use `none` for a failed `RedisGet`/`RedisHGet`. -/
structure TokenData where
  status : Option String
  reqStatus : Cell TokenRequestStatus
  coolStatus : Cell TokenCoolStatus
  chatUsage : Option Nat
  agentUsage : Option Nat
  tenantURL : Option String
  sessionId : Option String

/-- The pool state: the token ids enumerated by `RedisKeys("token:*")` (with
the `token:` namespace removed), the per-token Redis data, and the current
wall-clock time `time.Now()`. -/
structure Store where
  tokens : List String
  data : String → TokenData
  now : Nat

/-- `GetTokenRequestStatus`: a missing entry yields the default status with no
error; a present but unreadable entry yields the unmarshal error. -/
def GetTokenRequestStatus : Cell TokenRequestStatus → Except Unit TokenRequestStatus
  | Cell.absent => Except.ok ⟨false, 0⟩
  | Cell.corrupt => Except.error ()
  | Cell.val s => Except.ok s

/-- `GetTokenCoolStatus`: a missing entry yields the not-cooling default with
no error; a readable entry whose `coolEnd` has passed is reported with
`inCool = false`. -/
def GetTokenCoolStatus (now : Nat) : Cell TokenCoolStatus → Except Unit TokenCoolStatus
  | Cell.absent => Except.ok ⟨false, 0⟩
  | Cell.corrupt => Except.error ()
  | Cell.val cs => Except.ok (if cs.inCool ∧ cs.coolEnd < now then ⟨false, cs.coolEnd⟩ else cs)

/-- `getTokenChatUsageCount`: a failed counter read returns `0`. -/
def getTokenChatUsageCount (d : TokenData) : Nat := d.chatUsage.getD 0

/-- `getTokenAgentUsageCount`: a failed counter read returns `0`. -/
def getTokenAgentUsageCount (d : TokenData) : Nat := d.agentUsage.getD 0

/-- `SetTokenCoolStatus token duration` builds the persisted record
`{InCool: true, CoolEnd: now + duration}` together with the Redis TTL, which
the source sets equal to the cooldown duration. -/
def SetTokenCoolStatus (now duration : Nat) : TokenCoolStatus × Nat :=
  (⟨true, now + duration⟩, duration)

/-- Placeholder for `uuid.New().String()`, generated when a credential has no
persisted session id. -/
def genSessionId : String := "generated-session-id"

/-- A selection result: the three strings returned by `GetAvailableToken` /
`GetNextAvailableToken` (token, tenant url, session id). -/
structure Entry where
  token : String
  tenantURL : String
  sessionId : String
deriving DecidableEq, Repr

/-- The sentinel returned when the pool is empty. -/
def noTokenResult : Entry := ⟨"No token", "", ""⟩

/-- The sentinel returned when no credential passes the eligibility filters. -/
def noAvailableResult : Entry := ⟨"No available token", "", ""⟩

/-- The per-credential body of the selection loop, on explicit inputs: `none`
means the credential is skipped; `some (inCool, e)` means it is placed in the
cooling (`true`) or available (`false`) partition with result entry `e`.
The tests mirror the source order: disabled status, the retry-path exclusion,
request status (skipping on read-parse error, in-progress, or under 3 s since
the last request), the two usage quotas, tenant url, session id, cooldown. -/
def passesFiltersD (now : Nat) (exclude : Option String) (tok : String) (d : TokenData) :
    Option (Bool × Entry) :=
  if d.status = some "disabled" then none
  else if exclude = some tok then none
  else
    match GetTokenRequestStatus d.reqStatus with
    | Except.error _ => none
    | Except.ok rs =>
      if rs.inProgress then none
      else if now - rs.lastRequestAt < 3 * second then none
      else if 3000 ≤ getTokenChatUsageCount d then none
      else if 50 ≤ getTokenAgentUsageCount d then none
      else
        match d.tenantURL with
        | none => none
        | some url =>
          match GetTokenCoolStatus now d.coolStatus with
          | Except.error _ => none
          | Except.ok cs => some (cs.inCool, ⟨tok, url, d.sessionId.getD genSessionId⟩)

/-- `passesFiltersD` read off a store. -/
def passesFilters (s : Store) (exclude : Option String) (tok : String) : Option (Bool × Entry) :=
  passesFiltersD s.now exclude tok (s.data tok)

/-- The filtering loop of `GetAvailableToken` / `GetNextAvailableToken`:
partitions the enumerated tokens into the available queue (first component)
and the cooldown queue (second component), in enumeration order. -/
def classifyTokens (s : Store) (exclude : Option String) : List String → List Entry × List Entry
  | [] => ([], [])
  | tok :: rest =>
    let p := classifyTokens s exclude rest
    match passesFilters s exclude tok with
    | none => p
    | some (true, e) => (p.1, e :: p.2)
    | some (false, e) => (e :: p.1, p.2)

/-- The result policy shared by both selection functions, on the empty-pool
flag and the two queues: prefer a random member of the available queue, fall
back to a random member of the cooldown queue, else the no-eligible-credential
sentinel; an empty pool short-circuits to the pool-empty sentinel. `pick`
models the `rand.Intn` draw. -/
def selectFrom (poolEmpty : Bool) (p : List Entry × List Entry) (pick : Nat) : Entry :=
  if poolEmpty then noTokenResult
  else if h : 0 < p.1.length then p.1.get ⟨pick % p.1.length, Nat.mod_lt _ h⟩
  else if h : 0 < p.2.length then p.2.get ⟨pick % p.2.length, Nat.mod_lt _ h⟩
  else noAvailableResult

/-- The shared body of `GetAvailableToken` and `GetNextAvailableToken`. -/
def selectToken (s : Store) (exclude : Option String) (pick : Nat) : Entry :=
  selectFrom s.tokens.isEmpty (classifyTokens s exclude s.tokens) pick

/-- The available (non-cooling) queue built by the selection loop. -/
def availQueue (s : Store) (exclude : Option String) : List Entry :=
  (classifyTokens s exclude s.tokens).1

/-- The cooldown queue built by the selection loop. -/
def coolQueue (s : Store) (exclude : Option String) : List Entry :=
  (classifyTokens s exclude s.tokens).2

/-- `GetAvailableToken` from manager.go. -/
def GetAvailableToken (s : Store) (pick : Nat) : Entry := selectToken s none pick

/-- `GetNextAvailableToken` from manager.go: identical to `GetAvailableToken`
except that `excludeToken` is skipped in the filtering loop. -/
def GetNextAvailableToken (excludeToken : String) (s : Store) (pick : Nat) : Entry :=
  selectToken s (some excludeToken) pick

/-- Replace one token's persisted cooldown cell (the effect of a successful
`SetTokenCoolStatus` write, or of TTL expiry removing the entry). -/
def setCoolCell (s : Store) (tok : String) (c : Cell TokenCoolStatus) : Store :=
  { s with data := fun t => if t = tok then { s.data t with coolStatus := c } else s.data t }

/-- Replace one token's persisted request-status cell (the effect of a
successful `SetTokenRequestStatus` write). -/
def setReqCell (s : Store) (tok : String) (c : Cell TokenRequestStatus) : Store :=
  { s with data := fun t => if t = tok then { s.data t with reqStatus := c } else s.data t }

/-- The request-scoped gin context fields read and written by the manager:
`token`, `tenant_url`, `session_id`, `token_lock` (a lock handle, identified by
the token it was created for) and `retry_count`. -/
structure Ctx where
  token : Option String
  tenantURL : Option String
  sessionId : Option String
  tokenLock : Option String
  retryCount : Option Nat
deriving DecidableEq, Repr

/-- Observable actions of `SwitchTokenAndRetry`, in program order: attempted
status writes (with the persisted record and its TTL), the call into the
selection algorithm, and lock operations. -/
inductive Effect where
  | setCoolStatus (token : String) (st : TokenCoolStatus) (ttl : Nat)
  | queryNext (exclude : String)
  | setRequestStatus (token : String) (st : TokenRequestStatus) (ttl : Nat)
  | lock (token : String)
  | unlock (token : String)
deriving DecidableEq, Repr

/-- Environment of one `SwitchTokenAndRetry` run: the store it operates on,
which Redis writes fail (`coolWriteFails` for the `SetTokenCoolStatus` call,
`reqWriteFails` per token for `SetTokenRequestStatus`), and the random draw
used by the embedded selection. -/
structure SwitchEnv where
  store : Store
  coolWriteFails : Bool
  reqWriteFails : String → Bool
  pick : Nat

/-- Result of one `SwitchTokenAndRetry` run: the boolean return value, the
trace of performed actions, the final context and the final store. -/
structure SwitchResult where
  ok : Bool
  effects : List Effect
  ctx : Ctx
  store : Store

/-- Everything `SwitchTokenAndRetry` does after the selection call, given the
selection result `nextE` and the store `store1` as left by the best-effort
cooldown write. On a sentinel result it returns `false`; otherwise it releases
the current lock when the context holds one (marking the current token idle,
ignoring a write failure), acquires the new token's lock, marks the new token
in progress (rolling the lock back and returning `false` on write failure),
and rewrites the context fields with the replacement. All timestamps are
fresh `time.Now()` reads, i.e. the unchanged clock `env.store.now`. -/
def switchTail (env : SwitchEnv) (c : Ctx) (retryCount : Nat) (currentToken : String)
    (nextE : Entry) (store1 : Store) : SwitchResult :=
  let cool := SetTokenCoolStatus env.store.now (5 * minute)
  let eff1 : List Effect :=
    [Effect.setCoolStatus currentToken cool.1 cool.2, Effect.queryNext currentToken]
  if nextE.token = "No token" ∨ nextE.token = "No available token" then
    ⟨false, eff1, c, store1⟩
  else
    let relEffs : List Effect :=
      match c.tokenLock with
      | some l => [Effect.setRequestStatus currentToken ⟨false, env.store.now⟩ hour,
                   Effect.unlock l]
      | none => []
    let store2 :=
      match c.tokenLock with
      | some _ =>
        if env.reqWriteFails currentToken then store1
        else setReqCell store1 currentToken (Cell.val ⟨false, env.store.now⟩)
      | none => store1
    let eff2 := eff1 ++ relEffs ++ [Effect.lock nextE.token]
    if env.reqWriteFails nextE.token then
      ⟨false,
       eff2 ++ [Effect.setRequestStatus nextE.token ⟨true, env.store.now⟩ hour,
                Effect.unlock nextE.token],
       c, store2⟩
    else
      ⟨true,
       eff2 ++ [Effect.setRequestStatus nextE.token ⟨true, env.store.now⟩ hour],
       { c with token := some nextE.token, tenantURL := some nextE.tenantURL,
                sessionId := some nextE.sessionId, tokenLock := some nextE.token,
                retryCount := some (retryCount + 1) },
       setReqCell store2 nextE.token (Cell.val ⟨true, env.store.now⟩)⟩

/-- `SwitchTokenAndRetry` from manager.go. Returns `false` with no action if
the context carries no token or the retry bound is reached; otherwise cools
the current token for five minutes (a best-effort write), asks the selection
algorithm for a replacement excluding the current token, and continues in
`switchTail`. -/
def SwitchTokenAndRetry (env : SwitchEnv) (c : Ctx) (maxRetries : Nat) : SwitchResult :=
  match c.token with
  | none => ⟨false, [], c, env.store⟩
  | some currentToken =>
    let retryCount := c.retryCount.getD 0
    if maxRetries ≤ retryCount then ⟨false, [], c, env.store⟩
    else
      let cool := SetTokenCoolStatus env.store.now (5 * minute)
      let store1 :=
        if env.coolWriteFails then env.store
        else setCoolCell env.store currentToken (Cell.val cool.1)
      switchTail env c retryCount currentToken
        (GetNextAvailableToken currentToken store1 env.pick) store1

/-- Substring test on character lists: the needle occurs at some position. -/
def charsContain (needle : List Char) : List Char → Bool
  | [] => needle.isEmpty
  | c :: rest => needle.isPrefixOf (c :: rest) || charsContain needle rest

/-- `strings.Contains` / `bytes.Contains` on the sniffed response chunk. -/
def strContains (haystack needle : String) : Bool :=
  charsContain needle.toList haystack.toList

/-- Marker of an invalid credential in a 401 body. -/
def invalidTokenMsg : String := "Invalid token"

/-- The three subscription markers checked under `REMOVE_FREE`. -/
def subscriptionInactiveMsg : String := "Your subscription for account"

/-- Second half of the inactive-subscription marker. -/
def inactiveMsg : String := "is inactive"

/-- The suspended-subscription marker. -/
def suspendedMsg : String :=
  "has been suspended. To continue, [purchase a subscription](https://app.augmentcode.com/account)"

/-- The out-of-messages marker. -/
def outOfMessagesMsg : String := "You are out of user messages for account"

/-- The `REMOVE_FREE` body test of `CheckTokenTenantURL`: inactive or
suspended subscription, or out of user messages. -/
def subscriptionMarker (content : String) : Bool :=
  (strContains content subscriptionInactiveMsg &&
    (strContains content inactiveMsg || strContains content suspendedMsg)) ||
  strContains content outOfMessagesMsg

/-- One upstream probe response: HTTP status and the result of the single
1024-byte body read (`none` for a read error; `some ""` for a zero-byte read). -/
structure ProbeResponse where
  status : Nat
  bodyRead : Option String
deriving DecidableEq, Repr

/-- Environment of `CheckTokenTenantURL`: the network (`none` models a failed
`client.Do`), the `REMOVE_FREE` flag, and whether the `tenant_url` Redis write
succeeds. -/
structure ProbeEnv where
  respond : String → Option ProbeResponse
  removeFree : Bool
  hsetOk : Bool

/-- Redis writes performed by the validator on the credential's hash. -/
inductive ProbeWrite where
  | markDisabled
  | setTenantURL (url : String)
  | markActive
deriving DecidableEq, Repr

/-- Overall outcome of `CheckTokenTenantURL`: a validated endpoint, the
"token marked unusable" error, or the "no valid endpoint found" error. -/
inductive CheckOutcome where
  | valid (url : String)
  | invalidToken
  | notFound
deriving DecidableEq, Repr

/-- Outcome of probing a single candidate endpoint. -/
inductive StepResult where
  | nextCandidate (writes : List ProbeWrite)
  | stopInvalid (writes : List ProbeWrite)
  | stopValid (url : String) (writes : List ProbeWrite)
deriving DecidableEq, Repr

/-- The per-candidate body of `CheckTokenTenantURL`'s probe loop: a 401 whose
readable body contains the invalid-token marker disables the credential and
stops; a 200/402 whose readable non-empty body trips a `REMOVE_FREE`
subscription marker likewise; a 200/402 with a readable non-empty body
otherwise persists the endpoint (when the write succeeds) and the active
status and stops with success; every other case (network failure, other
statuses, failed or empty body reads, failed endpoint write) moves on to the
next candidate. -/
def probeCandidate (env : ProbeEnv) (url : String) : StepResult :=
  match env.respond url with
  | none => StepResult.nextCandidate []
  | some r =>
    if r.status = 401 then
      match r.bodyRead with
      | some body =>
        if body ≠ "" && strContains body invalidTokenMsg then
          StepResult.stopInvalid [ProbeWrite.markDisabled]
        else StepResult.nextCandidate []
      | none => StepResult.nextCandidate []
    else if r.status = 200 ∨ r.status = 402 then
      match r.bodyRead with
      | some content =>
        if content ≠ "" then
          if env.removeFree && subscriptionMarker content then
            StepResult.stopInvalid [ProbeWrite.markDisabled]
          else if env.hsetOk then
            StepResult.stopValid url [ProbeWrite.setTenantURL url, ProbeWrite.markActive]
          else StepResult.nextCandidate [ProbeWrite.setTenantURL url]
        else StepResult.nextCandidate []
      | none => StepResult.nextCandidate []
    else StepResult.nextCandidate []

/-- `CheckTokenTenantURL`'s probe loop over the (deduplicated, prioritized)
candidate list: returns the outcome, the accumulated Redis write attempts, and
the list of candidates actually probed. -/
def CheckTokenTenantURL (env : ProbeEnv) : List String → CheckOutcome × List ProbeWrite × List String
  | [] => (CheckOutcome.notFound, [], [])
  | url :: rest =>
    match probeCandidate env url with
    | StepResult.stopInvalid ws => (CheckOutcome.invalidToken, ws, [url])
    | StepResult.stopValid u ws => (CheckOutcome.valid u, ws, [url])
    | StepResult.nextCandidate ws =>
      let r := CheckTokenTenantURL env rest
      (r.1, ws ++ r.2.1, url :: r.2.2)

/-- A credential placed in either queue carries its own token id. -/
theorem passesFiltersD_token {now : Nat} {ex : Option String} {tok : String} {d : TokenData}
    {b : Bool} {e : Entry} (h : passesFiltersD now ex tok d = some (b, e)) : e.token = tok := by
  unfold passesFiltersD at h
  repeat first
  | (split at h <;> try exact Option.noConfusion h)
  rw [Option.some.injEq, Prod.mk.injEq] at h
  rw [← h.2]

/-- Store-level form of `passesFiltersD_token`. -/
theorem passesFilters_token {s : Store} {ex : Option String} {tok : String}
    {b : Bool} {e : Entry} (h : passesFilters s ex tok = some (b, e)) : e.token = tok :=
  passesFiltersD_token h

/-- The excluded token is always skipped by the filtering loop. -/
theorem passesFilters_self_excluded (s : Store) (tok : String) :
    passesFilters s (some tok) tok = none := by
  unfold passesFilters passesFiltersD
  split
  · rfl
  · simp

/-- The filter body only looks at the clock and the token's own Redis data. -/
theorem passesFilters_store_eq {s s' : Store} {ex : Option String} {tok : String}
    (hnow : s.now = s'.now) (hd : s.data tok = s'.data tok) :
    passesFilters s ex tok = passesFilters s' ex tok := by
  unfold passesFilters
  rw [hnow, hd]

/-- Members of the available queue come from a pool token that the filter
body maps to a non-cooling entry. -/
theorem mem_classify_avail {s : Store} {ex : Option String} {toks : List String} {e : Entry}
    (h : e ∈ (classifyTokens s ex toks).1) :
    ∃ tok, tok ∈ toks ∧ passesFilters s ex tok = some (false, e) := by
  induction toks with
  | nil => simp [classifyTokens] at h
  | cons tok rest ih =>
    unfold classifyTokens at h
    cases hp : passesFilters s ex tok with
    | none =>
      rw [hp] at h
      obtain ⟨t, ht, hpt⟩ := ih h
      exact ⟨t, List.mem_cons_of_mem _ ht, hpt⟩
    | some be =>
      obtain ⟨b, e'⟩ := be
      cases b with
      | false =>
        rw [hp] at h
        rcases List.mem_cons.mp h with h1 | h1
        · exact ⟨tok, List.mem_cons_self tok rest, by rw [hp, h1]⟩
        · obtain ⟨t, ht, hpt⟩ := ih h1
          exact ⟨t, List.mem_cons_of_mem _ ht, hpt⟩
      | true =>
        rw [hp] at h
        obtain ⟨t, ht, hpt⟩ := ih h
        exact ⟨t, List.mem_cons_of_mem _ ht, hpt⟩

/-- Members of the cooldown queue come from a pool token that the filter body
maps to a cooling entry. -/
theorem mem_classify_cool {s : Store} {ex : Option String} {toks : List String} {e : Entry}
    (h : e ∈ (classifyTokens s ex toks).2) :
    ∃ tok, tok ∈ toks ∧ passesFilters s ex tok = some (true, e) := by
  induction toks with
  | nil => simp [classifyTokens] at h
  | cons tok rest ih =>
    unfold classifyTokens at h
    cases hp : passesFilters s ex tok with
    | none =>
      rw [hp] at h
      obtain ⟨t, ht, hpt⟩ := ih h
      exact ⟨t, List.mem_cons_of_mem _ ht, hpt⟩
    | some be =>
      obtain ⟨b, e'⟩ := be
      cases b with
      | true =>
        rw [hp] at h
        rcases List.mem_cons.mp h with h1 | h1
        · exact ⟨tok, List.mem_cons_self tok rest, by rw [hp, h1]⟩
        · obtain ⟨t, ht, hpt⟩ := ih h1
          exact ⟨t, List.mem_cons_of_mem _ ht, hpt⟩
      | false =>
        rw [hp] at h
        obtain ⟨t, ht, hpt⟩ := ih h
        exact ⟨t, List.mem_cons_of_mem _ ht, hpt⟩

/-- A pool token mapped to a non-cooling entry lands in the available queue. -/
theorem classify_avail_of_mem {s : Store} {ex : Option String} {toks : List String}
    {tok : String} {e : Entry} (hmem : tok ∈ toks)
    (hp : passesFilters s ex tok = some (false, e)) :
    e ∈ (classifyTokens s ex toks).1 := by
  induction toks with
  | nil => simp at hmem
  | cons t rest ih =>
    unfold classifyTokens
    rcases List.mem_cons.mp hmem with h1 | h1
    · subst h1
      rw [hp]
      exact List.mem_cons_self _ _
    · cases hpt : passesFilters s ex t with
      | none => exact ih h1
      | some be =>
        obtain ⟨b, e'⟩ := be
        cases b with
        | false => exact List.mem_cons_of_mem _ (ih h1)
        | true => exact ih h1

/-- Both queues are empty exactly when the filter body skips every pool
token. -/
theorem classify_empty_iff {s : Store} {ex : Option String} {toks : List String} :
    ((classifyTokens s ex toks).1 = [] ∧ (classifyTokens s ex toks).2 = []) ↔
      ∀ tok ∈ toks, passesFilters s ex tok = none := by
  induction toks with
  | nil => simp [classifyTokens]
  | cons tok rest ih =>
    unfold classifyTokens
    constructor
    · intro hs
      cases hp : passesFilters s ex tok with
      | none =>
        rw [hp] at hs
        intro t ht
        rcases List.mem_cons.mp ht with h1 | h1
        · rw [h1]; exact hp
        · exact (ih.mp hs) t h1
      | some be =>
        obtain ⟨b, e'⟩ := be
        cases b <;> rw [hp] at hs <;> simp at hs
    · intro hall
      have hp := hall tok (List.mem_cons_self _ _)
      rw [hp]
      exact ih.mpr (fun t ht => hall t (List.mem_cons_of_mem _ ht))

/-- No entry sits in both queues: the filter body assigns each token one
cooldown bit. -/
theorem avail_cool_disjoint {s : Store} {ex : Option String} {e : Entry}
    (h1 : e ∈ availQueue s ex) (h2 : e ∈ coolQueue s ex) : False := by
  obtain ⟨t1, _, hp1⟩ := mem_classify_avail h1
  obtain ⟨t2, _, hp2⟩ := mem_classify_cool h2
  have e1 := passesFilters_token hp1
  have e2 := passesFilters_token hp2
  rw [← e1, e2] at hp1
  rw [hp2] at hp1
  simp at hp1

/-- Case analysis on the result policy: empty-pool sentinel, a member of the
available queue, a member of the cooldown queue (only when the available queue
is empty), or the no-eligible-credential sentinel. -/
theorem selectToken_cases (s : Store) (ex : Option String) (pick : Nat) :
    (s.tokens = [] ∧ selectToken s ex pick = noTokenResult) ∨
    selectToken s ex pick ∈ availQueue s ex ∨
    (availQueue s ex = [] ∧ selectToken s ex pick ∈ coolQueue s ex) ∨
    (s.tokens ≠ [] ∧ availQueue s ex = [] ∧ coolQueue s ex = [] ∧
      selectToken s ex pick = noAvailableResult) := by
  unfold selectToken selectFrom
  by_cases he : s.tokens.isEmpty
  · exact Or.inl ⟨List.isEmpty_iff.mp he, by rw [if_pos he]⟩
  · rw [if_neg he]
    by_cases h1 : 0 < (classifyTokens s ex s.tokens).1.length
    · rw [dif_pos h1]
      exact Or.inr (Or.inl (List.get_mem _ _ _))
    · rw [dif_neg h1]
      have ha : availQueue s ex = [] := by
        unfold availQueue
        exact List.eq_nil_of_length_eq_zero (Nat.eq_zero_of_not_pos h1)
      by_cases h2 : 0 < (classifyTokens s ex s.tokens).2.length
      · rw [dif_pos h2]
        exact Or.inr (Or.inr (Or.inl ⟨ha, List.get_mem _ _ _⟩))
      · rw [dif_neg h2]
        refine Or.inr (Or.inr (Or.inr ⟨fun hn => he (by rw [hn]; rfl), ha, ?_, rfl⟩))
        unfold coolQueue
        exact List.eq_nil_of_length_eq_zero (Nat.eq_zero_of_not_pos h2)

/-- When the available queue is non-empty, the result policy picks from it. -/
theorem selectToken_mem_avail {s : Store} {ex : Option String} (pick : Nat)
    (h : availQueue s ex ≠ []) : selectToken s ex pick ∈ availQueue s ex := by
  rcases selectToken_cases s ex pick with ⟨ht, _⟩ | hm | ⟨ha, _⟩ | ⟨_, ha, _, _⟩
  · exact absurd (by unfold availQueue; rw [ht]; rfl) h
  · exact hm
  · exact absurd ha h
  · exact absurd ha h

/-- The result policy only depends on the pool list and the two queues. -/
theorem selectToken_congr {s s' : Store} {ex : Option String} (pick : Nat)
    (htoks : s.tokens = s'.tokens)
    (hp : ∀ t, passesFilters s ex t = passesFilters s' ex t) :
    selectToken s ex pick = selectToken s' ex pick := by
  have hc : ∀ toks, classifyTokens s ex toks = classifyTokens s' ex toks := by
    intro toks
    induction toks with
    | nil => rfl
    | cons tok rest ih => unfold classifyTokens; rw [hp tok, ih]
  unfold selectToken
  rw [htoks, hc s'.tokens]

/-- A token over either usage quota is skipped by the filter body. -/
theorem passesFilters_quota {s : Store} {ex : Option String} {tok : String}
    (hq : 3000 ≤ getTokenChatUsageCount (s.data tok) ∨
      50 ≤ getTokenAgentUsageCount (s.data tok)) :
    passesFilters s ex tok = none := by
  unfold passesFilters passesFiltersD
  split
  · rfl
  split
  · rfl
  split
  · rfl
  split
  · rfl
  split
  · rfl
  rcases hq with hc | ha
  · rw [if_pos hc]
  · by_cases hchat : 3000 ≤ getTokenChatUsageCount (s.data tok)
    · rw [if_pos hchat]
    · rw [if_neg hchat, if_pos ha]

/-- A token whose tenant-endpoint read fails is skipped by the filter body. -/
theorem passesFilters_no_tenant {s : Store} {ex : Option String} {tok : String}
    (h : (s.data tok).tenantURL = none) : passesFilters s ex tok = none := by
  unfold passesFilters passesFiltersD
  split
  · rfl
  split
  · rfl
  split
  · rfl
  split
  · rfl
  split
  · rfl
  split
  · rfl
  split
  · rfl
  rw [h]

/-- A token skipped by the filter body is never the selection result, except
through a sentinel-shaped name collision, which the side conditions rule out. -/
theorem select_token_ne {s : Store} {ex : Option String} {tok : String} (pick : Nat)
    (h1 : tok ≠ "No token") (h2 : tok ≠ "No available token")
    (hp : passesFilters s ex tok = none) : (selectToken s ex pick).token ≠ tok := by
  rcases selectToken_cases s ex pick with ⟨_, hr⟩ | hm | ⟨_, hm⟩ | ⟨_, _, _, hr⟩
  · rw [hr]; exact fun h => h1 h.symm
  · intro hq
    obtain ⟨t, _, hpt⟩ := mem_classify_avail hm
    have he := passesFilters_token hpt
    rw [hq] at he
    rw [← he] at hpt
    rw [hp] at hpt
    exact Option.noConfusion hpt
  · intro hq
    obtain ⟨t, _, hpt⟩ := mem_classify_cool hm
    have he := passesFilters_token hpt
    rw [hq] at he
    rw [← he] at hpt
    rw [hp] at hpt
    exact Option.noConfusion hpt
  · rw [hr]; exact fun h => h2 h.symm

/-- C1: whenever the available (non-cooling) queue is non-empty, both
`GetAvailableToken` and `GetNextAvailableToken` return one of its members and
never a member of the cooldown queue; a cooling credential can therefore be
returned only when the available queue is empty. -/
theorem C1_preference_ordering (s : Store) (pick : Nat) (ex : String) :
    (availQueue s none ≠ [] →
      GetAvailableToken s pick ∈ availQueue s none ∧
        GetAvailableToken s pick ∉ coolQueue s none) ∧
    (availQueue s (some ex) ≠ [] →
      GetNextAvailableToken ex s pick ∈ availQueue s (some ex) ∧
        GetNextAvailableToken ex s pick ∉ coolQueue s (some ex)) := by
  constructor
  · intro h
    have hm := selectToken_mem_avail pick h
    exact ⟨hm, fun hcool => avail_cool_disjoint hm hcool⟩
  · intro h
    have hm := selectToken_mem_avail pick h
    exact ⟨hm, fun hcool => avail_cool_disjoint hm hcool⟩

/-- An eligible credential used by several witnesses below. -/
def sampleData : TokenData :=
  ⟨some "active", Cell.absent, Cell.absent, some 0, some 0,
    some "https://d1.api.augmentcode.com/", some "sid-1"⟩

/-- A one-credential pool used by several witnesses below. -/
def sampleStore : Store := ⟨["tokA"], fun _ => sampleData, 100 * second⟩

/-- Witness for C1 on a concrete one-credential pool. -/
theorem C1_preference_ordering_witness :
    availQueue sampleStore none ≠ [] ∧
      GetAvailableToken sampleStore 0 ∈ availQueue sampleStore none :=
  ⟨by decide, ((C1_preference_ordering sampleStore 0 "other").1 (by decide)).1⟩

/-- C2: `GetNextAvailableToken` never returns its excluded token (for any
exclusion that is not itself one of the two sentinel strings), and when every
other pool token is skipped by the filters it returns the
no-eligible-credential sentinel instead. -/
theorem C2_exclusion_respected (s : Store) (ex : String) (pick : Nat)
    (h1 : ex ≠ "No token") (h2 : ex ≠ "No available token") :
    (GetNextAvailableToken ex s pick).token ≠ ex ∧
    (s.tokens ≠ [] →
      (∀ tok ∈ s.tokens, tok ≠ ex → passesFilters s (some ex) tok = none) →
      GetNextAvailableToken ex s pick = noAvailableResult) := by
  unfold GetNextAvailableToken
  constructor
  · exact select_token_ne pick h1 h2 (passesFilters_self_excluded s ex)
  · intro hne hall
    have hempty : (classifyTokens s (some ex) s.tokens).1 = [] ∧
        (classifyTokens s (some ex) s.tokens).2 = [] := by
      apply classify_empty_iff.mpr
      intro tok ht
      by_cases htok : tok = ex
      · subst htok; exact passesFilters_self_excluded s tok
      · exact hall tok ht htok
    rcases selectToken_cases s (some ex) pick with ⟨ht, _⟩ | hm | ⟨_, hm⟩ | ⟨_, _, _, hr⟩
    · exact absurd ht hne
    · rw [show availQueue s (some ex) = [] from hempty.1] at hm
      simp at hm
    · rw [show coolQueue s (some ex) = [] from hempty.2] at hm
      simp at hm
    · exact hr

/-- Witness for C2: the excluded token is the pool's only credential, and the
result is the no-eligible-credential sentinel rather than the excluded
token. -/
theorem C2_exclusion_respected_witness :
    (GetNextAvailableToken "tokA" sampleStore 0).token ≠ "tokA" ∧
      GetNextAvailableToken "tokA" sampleStore 0 = noAvailableResult :=
  ⟨(C2_exclusion_respected sampleStore "tokA" 0 (by decide) (by decide)).1,
   (C2_exclusion_respected sampleStore "tokA" 0 (by decide) (by decide)).2
     (by decide) (by decide)⟩

/-- C3: a credential at or over either hard quota (`chatUsageCount >= 3000` or
`agentUsageCount >= 50`) is never returned by either selection function,
whatever its cooldown or in-progress state. -/
theorem C3_quota_disqualifies (s : Store) (pick : Nat) (ex tok : String)
    (h1 : tok ≠ "No token") (h2 : tok ≠ "No available token")
    (hq : 3000 ≤ getTokenChatUsageCount (s.data tok) ∨
      50 ≤ getTokenAgentUsageCount (s.data tok)) :
    (GetAvailableToken s pick).token ≠ tok ∧
      (GetNextAvailableToken ex s pick).token ≠ tok :=
  ⟨select_token_ne pick h1 h2 (passesFilters_quota hq),
   select_token_ne pick h1 h2 (passesFilters_quota hq)⟩

/-- A credential at the agent-mode quota, otherwise idle and eligible. -/
def sampleDataQuota : TokenData := { sampleData with agentUsage := some 50 }

/-- A pool holding one healthy credential and one at the agent quota. -/
def sampleStoreQuota : Store :=
  ⟨["tokA", "tokB"], fun t => if t = "tokB" then sampleDataQuota else sampleData, 100 * second⟩

/-- Witness for C3: the quota-breached credential is not selected. -/
theorem C3_quota_disqualifies_witness :
    (GetAvailableToken sampleStoreQuota 0).token ≠ "tokB" ∧
      (GetNextAvailableToken "tokA" sampleStoreQuota 0).token ≠ "tokB" :=
  C3_quota_disqualifies sampleStoreQuota 0 "tokA" "tokB" (by decide) (by decide)
    (Or.inr (by decide))

/-- C5: for any pool whose token names do not collide with the two sentinel
strings, `GetAvailableToken` returns the pool-empty sentinel exactly when the
pool is empty, and the no-eligible-credential sentinel exactly when the pool
is non-empty and every token is skipped by the eligibility filters. -/
theorem C5_sentinel_taxonomy (s : Store) (pick : Nat)
    (h1 : "No token" ∉ s.tokens) (h2 : "No available token" ∉ s.tokens) :
    ((GetAvailableToken s pick).token = "No token" ↔ s.tokens = []) ∧
    ((GetAvailableToken s pick).token = "No available token" ↔
      (s.tokens ≠ [] ∧ ∀ tok ∈ s.tokens, passesFilters s none tok = none)) := by
  unfold GetAvailableToken
  constructor
  · constructor
    · intro hq
      rcases selectToken_cases s none pick with ⟨ht, _⟩ | hm | ⟨_, hm⟩ | ⟨_, _, _, hr⟩
      · exact ht
      · obtain ⟨t, htm, hpt⟩ := mem_classify_avail hm
        have he := passesFilters_token hpt
        rw [hq] at he
        rw [← he] at htm
        exact absurd htm h1
      · obtain ⟨t, htm, hpt⟩ := mem_classify_cool hm
        have he := passesFilters_token hpt
        rw [hq] at he
        rw [← he] at htm
        exact absurd htm h1
      · rw [hr] at hq
        exact absurd hq (by decide)
    · intro ht
      unfold selectToken selectFrom
      rw [if_pos (by rw [ht]; rfl)]
      rfl
  · constructor
    · intro hq
      rcases selectToken_cases s none pick with ⟨_, hr⟩ | hm | ⟨_, hm⟩ | ⟨hne, ha, hcq, _⟩
      · rw [hr] at hq
        exact absurd hq (by decide)
      · obtain ⟨t, htm, hpt⟩ := mem_classify_avail hm
        have he := passesFilters_token hpt
        rw [hq] at he
        rw [← he] at htm
        exact absurd htm h2
      · obtain ⟨t, htm, hpt⟩ := mem_classify_cool hm
        have he := passesFilters_token hpt
        rw [hq] at he
        rw [← he] at htm
        exact absurd htm h2
      · exact ⟨hne, classify_empty_iff.mp ⟨ha, hcq⟩⟩
    · intro hcond
      obtain ⟨hne, hall⟩ := hcond
      have hempty := classify_empty_iff.mpr hall
      unfold selectToken selectFrom
      rw [if_neg (fun h => hne (List.isEmpty_iff.mp h))]
      rw [dif_neg (by rw [hempty.1]; simp)]
      rw [dif_neg (by rw [hempty.2]; simp)]
      rfl

/-- A pool whose single credential is skipped for being in progress. -/
def sampleDataBusy : TokenData := { sampleData with reqStatus := Cell.val ⟨true, 0⟩ }

/-- A saturated one-credential pool. -/
def sampleStoreBusy : Store := ⟨["tokA"], fun _ => sampleDataBusy, 100 * second⟩

/-- Witness for C5: an empty pool yields the pool-empty sentinel, and a
saturated pool yields the no-eligible-credential sentinel. -/
theorem C5_sentinel_taxonomy_witness :
    (GetAvailableToken ⟨[], fun _ => sampleData, 100 * second⟩ 0).token = "No token" ∧
      (GetAvailableToken sampleStoreBusy 0).token = "No available token" :=
  ⟨(C5_sentinel_taxonomy ⟨[], fun _ => sampleData, 100 * second⟩ 0 (by decide)
      (by decide)).1.mpr rfl,
   (C5_sentinel_taxonomy sampleStoreBusy 0 (by decide) (by decide)).2.mpr
     ⟨by decide, by decide⟩⟩

/-- C7: a credential whose tenant-endpoint read fails is placed in neither the
available nor the cooldown queue (for any exclusion set), and is never the
selection result. -/
theorem C7_missing_tenant_excluded (s : Store) (pick : Nat) (ex tok : String)
    (hten : (s.data tok).tenantURL = none) :
    (∀ exc : Option String,
      (∀ e ∈ availQueue s exc, e.token ≠ tok) ∧ (∀ e ∈ coolQueue s exc, e.token ≠ tok)) ∧
    (tok ≠ "No token" → tok ≠ "No available token" →
      (GetAvailableToken s pick).token ≠ tok ∧
        (GetNextAvailableToken ex s pick).token ≠ tok) := by
  constructor
  · intro exc
    constructor
    · intro e hm he
      obtain ⟨t, _, hpt⟩ := mem_classify_avail hm
      have het := passesFilters_token hpt
      rw [he] at het
      rw [← het] at hpt
      rw [passesFilters_no_tenant hten] at hpt
      exact Option.noConfusion hpt
    · intro e hm he
      obtain ⟨t, _, hpt⟩ := mem_classify_cool hm
      have het := passesFilters_token hpt
      rw [he] at het
      rw [← het] at hpt
      rw [passesFilters_no_tenant hten] at hpt
      exact Option.noConfusion hpt
  · intro h1 h2
    exact ⟨select_token_ne pick h1 h2 (passesFilters_no_tenant hten),
           select_token_ne pick h1 h2 (passesFilters_no_tenant hten)⟩

/-- A credential whose tenant-endpoint read fails. -/
def sampleDataNoTenant : TokenData := { sampleData with tenantURL := none }

/-- A pool holding one healthy credential and one without a tenant endpoint. -/
def sampleStoreNoTenant : Store :=
  ⟨["tokA", "tokB"], fun t => if t = "tokB" then sampleDataNoTenant else sampleData,
    100 * second⟩

/-- Witness for C7 on a concrete pool. -/
theorem C7_missing_tenant_excluded_witness :
    (∀ e ∈ availQueue sampleStoreNoTenant none, e.token ≠ "tokB") ∧
      (GetAvailableToken sampleStoreNoTenant 0).token ≠ "tokB" :=
  ⟨((C7_missing_tenant_excluded sampleStoreNoTenant 0 "tokA" "tokB" (by decide)).1 none).1,
   ((C7_missing_tenant_excluded sampleStoreNoTenant 0 "tokA" "tokB" (by decide)).2
      (by decide) (by decide)).1⟩

/-- The filter body cannot tell an expired cooldown record from a missing
one. -/
theorem passesFiltersD_expired {now : Nat} {ex : Option String} {tok : String}
    {d : TokenData} {rec : TokenCoolStatus}
    (hc : d.coolStatus = Cell.val rec) (hin : rec.inCool = true) (hend : rec.coolEnd < now) :
    passesFiltersD now ex tok d =
      passesFiltersD now ex tok { d with coolStatus := Cell.absent } := by
  obtain ⟨st, rq, cl, cu, au, tu, si⟩ := d
  have hc' : cl = Cell.val rec := hc
  subst hc'
  have h1 : GetTokenCoolStatus now (Cell.val rec) = Except.ok ⟨false, rec.coolEnd⟩ := by
    simp only [GetTokenCoolStatus]
    rw [if_pos ⟨hin, hend⟩]
  unfold passesFiltersD
  dsimp only
  rw [h1]
  rfl

/-- C8: a cooldown record whose `coolEnd` is in the past is reported as
`inCool = false`, and replacing it with a missing record does not change the
selection result: the credential is treated identically. -/
theorem C8_cooldown_expiry (s : Store) (tok : String) (pick : Nat) (rec : TokenCoolStatus)
    (hin : rec.inCool = true) (hend : rec.coolEnd < s.now)
    (hc : (s.data tok).coolStatus = Cell.val rec) :
    GetTokenCoolStatus s.now (Cell.val rec) = Except.ok ⟨false, rec.coolEnd⟩ ∧
      GetAvailableToken s pick = GetAvailableToken (setCoolCell s tok Cell.absent) pick := by
  constructor
  · simp only [GetTokenCoolStatus]
    rw [if_pos ⟨hin, hend⟩]
  · unfold GetAvailableToken
    refine selectToken_congr pick ?_ ?_
    · rfl
    intro t
    unfold passesFilters
    show passesFiltersD s.now none t (s.data t) =
      passesFiltersD s.now none t
        (if t = tok then { s.data t with coolStatus := Cell.absent } else s.data t)
    by_cases ht : t = tok
    · subst ht
      rw [if_pos rfl]
      exact passesFiltersD_expired hc hin hend
    · rw [if_neg ht]

/-- A credential with an expired cooldown record. -/
def sampleDataExpired : TokenData := { sampleData with coolStatus := Cell.val ⟨true, 5⟩ }

/-- A one-credential pool whose credential's cooldown has expired. -/
def sampleStoreExpired : Store := ⟨["tokA"], fun _ => sampleDataExpired, 100 * second⟩

/-- Witness for C8 on a concrete expired record. -/
theorem C8_cooldown_expiry_witness :
    GetTokenCoolStatus sampleStoreExpired.now (Cell.val ⟨true, 5⟩) =
      Except.ok ⟨false, 5⟩ ∧
    GetAvailableToken sampleStoreExpired 0 =
      GetAvailableToken (setCoolCell sampleStoreExpired "tokA" Cell.absent) 0 :=
  C8_cooldown_expiry sampleStoreExpired "tokA" 0 ⟨true, 5⟩ rfl (by decide) (by decide)

/-- C4: once the retry count has reached the caller's bound, the controller
reports failure and performs no action at all: the trace is empty (so no
cooldown write, no selection call, no lock release or acquisition) and the
context and store are untouched. -/
theorem C4_exhausted_no_action (env : SwitchEnv) (c : Ctx) (maxRetries : Nat)
    (h : c.retryCount.getD 0 ≥ maxRetries) :
    SwitchTokenAndRetry env c maxRetries = ⟨false, [], c, env.store⟩ := by
  unfold SwitchTokenAndRetry
  cases hc : c.token with
  | none => rfl
  | some cur =>
    dsimp only
    rw [if_pos h]

/-- A switch environment over the sample pool with reliable writes. -/
def sampleEnv : SwitchEnv := ⟨sampleStore, false, fun _ => false, 0⟩

/-- Witness for C4: a third 429 with `maxRetries = 2` does nothing. -/
theorem C4_exhausted_no_action_witness :
    SwitchTokenAndRetry sampleEnv ⟨some "tokB", none, none, some "tokB", some 2⟩ 2 =
      ⟨false, [], ⟨some "tokB", none, none, some "tokB", some 2⟩, sampleEnv.store⟩ :=
  C4_exhausted_no_action sampleEnv ⟨some "tokB", none, none, some "tokB", some 2⟩ 2
    (by decide)

/-- Selection with an exclusion never reads the excluded token's data. -/
theorem getNext_congr_excluded {s s' : Store} {ex : String} (pick : Nat)
    (htoks : s.tokens = s'.tokens) (hnow : s.now = s'.now)
    (hd : ∀ t, t ≠ ex → s.data t = s'.data t) :
    GetNextAvailableToken ex s pick = GetNextAvailableToken ex s' pick := by
  unfold GetNextAvailableToken
  refine selectToken_congr pick htoks ?_
  intro t
  by_cases ht : t = ex
  · subst ht
    rw [passesFilters_self_excluded, passesFilters_self_excluded]
  · exact passesFilters_store_eq hnow (hd t ht)

/-- Rewriting the excluded token's cooldown cell does not change the
selection result. -/
theorem getNext_setCool_self (s : Store) (cur : String) (v : Cell TokenCoolStatus)
    (pick : Nat) :
    GetNextAvailableToken cur (setCoolCell s cur v) pick =
      GetNextAvailableToken cur s pick := by
  refine getNext_congr_excluded pick rfl rfl ?_
  intro t ht
  unfold setCoolCell
  dsimp only
  rw [if_neg ht]

/-- Whether the best-effort cooldown write landed does not change what the
subsequent selection (which excludes the cooled token) returns. -/
theorem getNext_store1_inv (s : Store) (cur : String) (v : Cell TokenCoolStatus)
    (b1 b2 : Bool) (pick : Nat) :
    GetNextAvailableToken cur (if b1 then s else setCoolCell s cur v) pick =
      GetNextAvailableToken cur (if b2 then s else setCoolCell s cur v) pick := by
  have key : ∀ fl : Bool,
      GetNextAvailableToken cur (if fl then s else setCoolCell s cur v) pick =
        GetNextAvailableToken cur s pick := by
    intro fl
    cases fl
    · exact getNext_setCool_self s cur v pick
    · rfl
  rw [key b1, key b2]

/-- `setReqCell` never touches a cooldown cell. -/
theorem setReqCell_coolStatus (s : Store) (t : String) (cl : Cell TokenRequestStatus)
    (x : String) : ((setReqCell s t cl).data x).coolStatus = (s.data x).coolStatus := by
  unfold setReqCell
  dsimp only
  split
  · rfl
  · rfl

/-- `setCoolCell` stores the given cooldown cell at its token. -/
theorem setCoolCell_self (s : Store) (t : String) (cl : Cell TokenCoolStatus) :
    ((setCoolCell s t cl).data t).coolStatus = cl := by
  unfold setCoolCell
  dsimp only
  rw [if_pos rfl]

/-- Reduction of `SwitchTokenAndRetry` under the retry bound. -/
theorem switch_run (env : SwitchEnv) (c : Ctx) (maxR : Nat) (cur : String)
    (hc : c.token = some cur) (h : c.retryCount.getD 0 < maxR) :
    SwitchTokenAndRetry env c maxR =
      switchTail env c (c.retryCount.getD 0) cur
        (GetNextAvailableToken cur
          (if env.coolWriteFails then env.store
           else setCoolCell env.store cur (Cell.val ⟨true, env.store.now + 5 * minute⟩))
          env.pick)
        (if env.coolWriteFails then env.store
         else setCoolCell env.store cur (Cell.val ⟨true, env.store.now + 5 * minute⟩)) := by
  unfold SwitchTokenAndRetry
  rw [hc]
  dsimp only [SetTokenCoolStatus]
  rw [if_neg (Nat.not_le.mpr h)]

/-- The tail of the switch is insensitive to the cooldown-write failure flag
in everything except the final store. -/
theorem switchTail_flag_inv (env : SwitchEnv) (b : Bool) (c : Ctx) (rc : Nat)
    (cur : String) (nextE : Entry) (st1 st1' : Store) :
    (switchTail { env with coolWriteFails := b } c rc cur nextE st1').ok =
        (switchTail env c rc cur nextE st1).ok ∧
      (switchTail { env with coolWriteFails := b } c rc cur nextE st1').effects =
        (switchTail env c rc cur nextE st1).effects ∧
      (switchTail { env with coolWriteFails := b } c rc cur nextE st1').ctx =
        (switchTail env c rc cur nextE st1).ctx := by
  unfold switchTail
  dsimp only
  split
  · exact ⟨rfl, rfl, rfl⟩
  · cases c.tokenLock <;> (split <;> exact ⟨rfl, rfl, rfl⟩)

/-- C6: below the retry bound, the controller's first action persists for the
current credential the cooldown record `{inCool := true, coolEnd := now + 5
minutes}` with TTL equal to the five-minute cooldown and its second action is
the selection call; when the write lands the final store holds that record;
and a failed write changes nothing observable (return value, action trace,
final context) — the switch still proceeds to selection and lock transfer. -/
theorem C6_cooldown_persist_best_effort (env : SwitchEnv) (c : Ctx) (maxRetries : Nat)
    (cur : String) (hc : c.token = some cur) (h : c.retryCount.getD 0 < maxRetries) :
    (SwitchTokenAndRetry env c maxRetries).effects.take 2 =
      [Effect.setCoolStatus cur ⟨true, env.store.now + 5 * minute⟩ (5 * minute),
       Effect.queryNext cur] ∧
    (env.coolWriteFails = false →
      ((SwitchTokenAndRetry env c maxRetries).store.data cur).coolStatus =
        Cell.val ⟨true, env.store.now + 5 * minute⟩) ∧
    (∀ b : Bool,
      (SwitchTokenAndRetry { env with coolWriteFails := b } c maxRetries).ok =
          (SwitchTokenAndRetry env c maxRetries).ok ∧
        (SwitchTokenAndRetry { env with coolWriteFails := b } c maxRetries).effects =
          (SwitchTokenAndRetry env c maxRetries).effects ∧
        (SwitchTokenAndRetry { env with coolWriteFails := b } c maxRetries).ctx =
          (SwitchTokenAndRetry env c maxRetries).ctx) := by
  refine ⟨?_, ?_, ?_⟩
  · rw [switch_run env c maxRetries cur hc h]
    unfold switchTail
    dsimp only [SetTokenCoolStatus]
    repeat' split
    all_goals rfl
  · intro hflag
    have hs1 : (if env.coolWriteFails then env.store
        else setCoolCell env.store cur (Cell.val ⟨true, env.store.now + 5 * minute⟩)) =
        setCoolCell env.store cur (Cell.val ⟨true, env.store.now + 5 * minute⟩) := by
      rw [hflag]
      rfl
    rw [switch_run env c maxRetries cur hc h, hs1]
    unfold switchTail
    dsimp only
    split
    · exact setCoolCell_self env.store cur _
    · cases c.tokenLock <;>
        (split <;>
          simp only [apply_ite (fun st : Store => (st.data cur).coolStatus),
            setReqCell_coolStatus, setCoolCell_self, ite_self])
  · intro b
    have hrun := switch_run env c maxRetries cur hc h
    have hrunb := switch_run { env with coolWriteFails := b } c maxRetries cur hc h
    rw [hrun, hrunb]
    dsimp only
    rw [getNext_store1_inv env.store cur (Cell.val ⟨true, env.store.now + 5 * minute⟩)
      b env.coolWriteFails env.pick]
    exact switchTail_flag_inv env b c (c.retryCount.getD 0) cur _ _ _

/-- Witness for C6: a first 429 on the sample pool cools the current token
for five minutes before anything else. -/
theorem C6_cooldown_persist_best_effort_witness :
    (SwitchTokenAndRetry sampleEnv ⟨some "tokB", none, none, some "tokB", some 0⟩ 2).effects.take 2 =
      [Effect.setCoolStatus "tokB" ⟨true, sampleEnv.store.now + 5 * minute⟩ (5 * minute),
       Effect.queryNext "tokB"] :=
  (C6_cooldown_persist_best_effort sampleEnv ⟨some "tokB", none, none, some "tokB", some 0⟩ 2
    "tokB" rfl (by decide)).1

/-- Probe environment whose endpoint answers HTTP 200 with a zero-byte body. -/
def probeEnvEmptyBody : ProbeEnv := ⟨fun _ => some ⟨200, some ""⟩, false, true⟩

/-- Probe environment whose endpoint answers HTTP 200 with a readable body. -/
def probeEnvOkBody : ProbeEnv := ⟨fun _ => some ⟨200, some "hello augment"⟩, false, true⟩

/-- A concrete candidate endpoint. -/
def probeURLd1 : String := "https://d1.api.augmentcode.com/"

/-- C9 counterexample: an HTTP 200 response whose single body read yields zero
bytes contains no invalid-credential or subscription marker, yet the validator
does not persist the endpoint or report success — it skips the candidate and
ends with the no-valid-endpoint error and no Redis write. -/
theorem C9_counterexample :
    (CheckTokenTenantURL probeEnvEmptyBody [probeURLd1]).1 ≠
        CheckOutcome.valid probeURLd1 ∧
      CheckTokenTenantURL probeEnvEmptyBody [probeURLd1] =
        (CheckOutcome.notFound, [], [probeURLd1]) :=
  ⟨by decide, by decide⟩

/-- C9 (amended): when a probed candidate answers HTTP 200 or 402, the single
body read succeeds with at least one byte, the body trips no subscription
marker, and the tenant-endpoint write succeeds, the validator persists the
endpoint and the active status, probes no further candidate, and reports
success with the validated endpoint. -/
theorem C9_valid_response_persists (env : ProbeEnv) (url : String) (rest : List String)
    (st : Nat) (content : String)
    (hresp : env.respond url = some ⟨st, some content⟩)
    (hst : st = 200 ∨ st = 402)
    (hne : content ≠ "")
    (hmark : subscriptionMarker content = false)
    (hset : env.hsetOk = true) :
    CheckTokenTenantURL env (url :: rest) =
      (CheckOutcome.valid url,
       [ProbeWrite.setTenantURL url, ProbeWrite.markActive], [url]) := by
  have hp : probeCandidate env url =
      StepResult.stopValid url [ProbeWrite.setTenantURL url, ProbeWrite.markActive] := by
    unfold probeCandidate
    rw [hresp]
    dsimp only
    rw [if_neg (by rcases hst with h | h <;> subst h <;> decide)]
    rw [if_pos hst]
    rw [if_pos hne]
    rw [hmark, Bool.and_false, if_neg Bool.false_ne_true]
    rw [if_pos hset]
  unfold CheckTokenTenantURL
  rw [hp]

/-- Witness for the amended C9 on a concrete 200 response with a readable
body. -/
theorem C9_valid_response_persists_witness :
    CheckTokenTenantURL probeEnvOkBody [probeURLd1] =
      (CheckOutcome.valid probeURLd1,
       [ProbeWrite.setTenantURL probeURLd1, ProbeWrite.markActive], [probeURLd1]) :=
  C9_valid_response_persists probeEnvOkBody probeURLd1 [] 200 "hello augment" rfl
    (Or.inl rfl) (by decide) (by decide) rfl

/-- C10: a failed store read yields the idle default request status with no
error, the not-cooling default cooldown status with no error, and zero usage
counts; consequently a credential whose four per-token reads all fail (and
whose credential hash still yields a tenant url and a non-disabled status)
lands in the available queue of the selection algorithm rather than being
excluded or surfacing an error. -/
theorem C10_read_failure_defaults (now : Nat) (d : TokenData)
    (h1 : d.reqStatus = Cell.absent) (h2 : d.coolStatus = Cell.absent)
    (h3 : d.chatUsage = none) (h4 : d.agentUsage = none) :
    (GetTokenRequestStatus d.reqStatus = Except.ok ⟨false, 0⟩ ∧
      GetTokenCoolStatus now d.coolStatus = Except.ok ⟨false, 0⟩ ∧
      getTokenChatUsageCount d = 0 ∧ getTokenAgentUsageCount d = 0) ∧
    ∀ (s : Store) (tok u : String), s.data tok = d →
      d.status ≠ some "disabled" → d.tenantURL = some u → 3 * second ≤ s.now →
      tok ∈ s.tokens →
      (⟨tok, u, d.sessionId.getD genSessionId⟩ : Entry) ∈ availQueue s none := by
  refine ⟨⟨by rw [h1]; rfl, by rw [h2]; rfl,
    by unfold getTokenChatUsageCount; rw [h3]; rfl,
    by unfold getTokenAgentUsageCount; rw [h4]; rfl⟩, ?_⟩
  intro s tok u hs hdis hten hnow hmem
  have hreq : GetTokenRequestStatus d.reqStatus = Except.ok ⟨false, 0⟩ := by
    rw [h1]
    rfl
  have hcool : GetTokenCoolStatus s.now d.coolStatus = Except.ok ⟨false, 0⟩ := by
    rw [h2]
    rfl
  have hchat : getTokenChatUsageCount d = 0 := by
    unfold getTokenChatUsageCount; rw [h3]; rfl
  have hagent : getTokenAgentUsageCount d = 0 := by
    unfold getTokenAgentUsageCount; rw [h4]; rfl
  have h3s : ¬ s.now - (0 : Nat) < 3 * second := by
    rw [Nat.sub_zero]
    exact Nat.not_lt.mpr hnow
  have hp : passesFilters s none tok =
      some (false, ⟨tok, u, d.sessionId.getD genSessionId⟩) := by
    unfold passesFilters passesFiltersD
    rw [hs]
    rw [if_neg hdis, if_neg (fun hcon => Option.noConfusion hcon), hreq]
    dsimp only
    rw [if_neg Bool.false_ne_true]
    rw [if_neg h3s]
    rw [hchat, if_neg (by decide : ¬ (3000 : Nat) ≤ 0)]
    rw [hagent, if_neg (by decide : ¬ (50 : Nat) ≤ 0)]
    rw [hten]
    dsimp only
    rw [hcool]
  exact classify_avail_of_mem hmem hp

/-- A credential whose four per-token reads all fail. -/
def sampleDataAbsent : TokenData :=
  ⟨some "active", Cell.absent, Cell.absent, none, none,
    some "https://d1.api.augmentcode.com/", some "sid-1"⟩

/-- A one-credential pool whose credential's per-token reads all fail. -/
def sampleStoreAbsent : Store := ⟨["tokA"], fun _ => sampleDataAbsent, 100 * second⟩

/-- Witness for C10 on a concrete pool. -/
theorem C10_read_failure_defaults_witness :
    GetTokenRequestStatus Cell.absent = Except.ok ⟨false, 0⟩ ∧
      (⟨"tokA", "https://d1.api.augmentcode.com/", "sid-1"⟩ : Entry) ∈
        availQueue sampleStoreAbsent none := by
  have h := C10_read_failure_defaults (100 * second) sampleDataAbsent rfl rfl rfl rfl
  exact ⟨h.1.1, h.2 sampleStoreAbsent "tokA" "https://d1.api.augmentcode.com/" rfl
    (by decide) rfl (by decide) (by decide)⟩

end Augment2api
